import Mathlib

/-!
Verification of the computational core of the fractal-explorer repository
(src/src/FractalGenerator.tsx). The numeric model works over ℚ: every
arithmetic expression of the source is translated literally, so formula-level
claims are settled exactly; tolerance claims stated by the spec for
floating-point rounding hold a fortiori when the exact values coincide, and
are refuted when the exact values differ by far more than the tolerance.
-/

/-- JavaScript Math.round: round half toward positive infinity,
`Math.round(x) = ⌊x + 1/2⌋`. -/
def jsRound (x : ℚ) : ℤ := ⌊x + 1/2⌋

/-- FractalGenerator.tsx lines 87-94: the inner `hue2rgb` helper.
The two adjustments of `t` are sequential, as in the source. -/
def hue2rgb (p q t : ℚ) : ℚ :=
  let t1 := if t < 0 then t + 1 else t
  let t2 := if t1 > 1 then t1 - 1 else t1
  if t2 < 1/6 then p + (q - p) * 6 * t2
  else if t2 < 1/2 then q
  else if t2 < 2/3 then p + (q - p) * (2/3 - t2) * 6
  else p

/-- FractalGenerator.tsx lines 81-104: `hslToRgb`, returning the three
channels after `Math.round(c * 255)`. -/
def hslToRgb (h s l : ℚ) : ℤ × ℤ × ℤ :=
  if s = 0 then
    (jsRound (l * 255), jsRound (l * 255), jsRound (l * 255))
  else
    let q := if l < 1/2 then l * (1 + s) else l + s - l * s
    let p := 2 * l - q
    (jsRound (hue2rgb p q (h + 1/3) * 255),
     jsRound (hue2rgb p q h * 255),
     jsRound (hue2rgb p q (h - 1/3) * 255))

/-- FractalGenerator.tsx lines 52-61: the escape-time loop
`while (zx*zx + zy*zy <= 4 && iteration < maxIterations)`, with the
remaining budget `maxIterations - iteration` carried as structural fuel. -/
def escapeLoop (x y : ℚ) : ℕ → ℚ → ℚ → ℕ → ℕ
  | 0, _, _, iteration => iteration
  | fuel + 1, zx, zy, iteration =>
    if zx * zx + zy * zy ≤ 4 then
      escapeLoop x y fuel (zx * zx - zy * zy + x) (2 * zx * zy + y) (iteration + 1)
    else iteration

/-- FractalGenerator.tsx lines 52-61: iteration count reached by the escape
loop started at `zx = zy = 0`, `iteration = 0`. -/
def escapeIterationCount (x y : ℚ) (maxIterations : ℕ) : ℕ :=
  escapeLoop x y maxIterations 0 0 0

/-- FractalGenerator.tsx line 64: color choice for one pixel — black when the
iteration count reached the budget, HSL-mapped hue otherwise. -/
def pixelColor (maxIterations iteration : ℕ) : ℤ × ℤ × ℤ :=
  if iteration = maxIterations then (0, 0, 0)
  else hslToRgb ((iteration : ℚ) / (maxIterations : ℚ)) 1 (1/2)

/-- FractalGenerator.tsx lines 43-50: the CoordinateMapper — pixel `(px, py)`
to complex-plane point under viewport `(centerX, centerY, zoom)` and canvas
size `(width, height)`. -/
def pixelToComplex (width height centerX centerY zoom px py : ℚ) : ℚ × ℚ :=
  let scale := 4 / (width * zoom)
  let offsetX := centerX - (width / 2) * scale
  let offsetY := centerY - (height / 2) * scale
  (px * scale + offsetX, py * scale + offsetY)

/-- FractalGenerator.tsx lines 47-68: the RGBA quadruple written for pixel
`(px, py)` of a render pass (lines 65-68 write R, G, B and then alpha 255). -/
def renderedPixelRGBA (width height : ℕ) (centerX centerY zoom : ℚ)
    (maxIterations : ℕ) (px py : ℕ) : ℤ × ℤ × ℤ × ℤ :=
  let p := pixelToComplex (width : ℚ) (height : ℚ) centerX centerY zoom (px : ℚ) (py : ℚ)
  let iteration := escapeIterationCount p.1 p.2 maxIterations
  let c := pixelColor maxIterations iteration
  (c.1, c.2.1, c.2.2, 255)

/-- FractalGenerator.tsx line 18: the pan anchor held in
`lastMousePositionRef`. -/
structure MousePosition where
  x : ℚ
  y : ℚ
  deriving DecidableEq

/-- FractalGenerator.tsx lines 11-18: the mutable state of the
FractalGenerator component. `width` and `height` are props (read-only inputs
from the parent), so they are parameters of the handlers below, not state.
`maxIterations` is ℤ because the numeric input can supply any integer,
including non-positive ones. -/
structure ControllerState where
  centerX : ℚ
  centerY : ℚ
  zoom : ℚ
  maxIterations : ℤ
  isPanning : Bool
  lastMousePosition : Option MousePosition
  deriving DecidableEq

/-- FractalGenerator.tsx lines 11-18: the initial component state
(centerX = -0.6, centerY = 0, zoom = 1, maxIterations = 100, not panning). -/
def initialControllerState : ControllerState :=
  { centerX := -3/5, centerY := 0, zoom := 1, maxIterations := 100,
    isPanning := false, lastMousePosition := none }

/-- FractalGenerator.tsx line 121: the pre-clamp zoom from a wheel event —
divide by 1.1 when `deltaY > 0`, multiply by 1.1 otherwise. -/
def newScalePreClamp (zoom deltaY : ℚ) : ℚ :=
  if deltaY > 0 then zoom / (11/10) else zoom * (11/10)

/-- FractalGenerator.tsx line 122: `Math.max(0.00001, Math.min(1000000, z))`. -/
def clampZoom (z : ℚ) : ℚ :=
  max (1/100000) (min 1000000 z)

/-- FractalGenerator.tsx lines 106-132: `handleZoom`. The wheel event carries
`deltaY` and a pointer position `(px, py)`; the handler replaces center and
zoom. Note line 124 divides by `width * oldScale` while line 125 divides by
`height * oldScale` (the source names the old zoom `oldScale`). -/
def handleZoom (width height deltaY px py : ℚ) (s : ControllerState) :
    ControllerState :=
  let oldScale := s.zoom
  let mousePointToX := px / width
  let mousePointToY := py / height
  let newScale := clampZoom (newScalePreClamp oldScale deltaY)
  let newCenterX :=
    s.centerX + (mousePointToX - 1/2) * (4 / (width * oldScale)) * (oldScale - newScale)
  let newCenterY :=
    s.centerY + (mousePointToY - 1/2) * (4 / (height * oldScale)) * (oldScale - newScale)
  { s with centerX := newCenterX, centerY := newCenterY, zoom := newScale }

/-- FractalGenerator.tsx lines 134-143: `handleMouseDown` — enter the panning
state and record the pointer position as the pan anchor. -/
def handleMouseDown (px py : ℚ) (s : ControllerState) : ControllerState :=
  { s with isPanning := true, lastMousePosition := some ⟨px, py⟩ }

/-- FractalGenerator.tsx lines 145-164: `handleMouseMove` — no-op unless
panning with an anchor set; otherwise shift the center by the pointer delta
times `scale = 4/(width*zoom)` times `sensitivity = 0.5` and move the anchor
to the current position. -/
def handleMouseMove (width px py : ℚ) (s : ControllerState) : ControllerState :=
  if s.isPanning then
    match s.lastMousePosition with
    | none => s
    | some last =>
      let scale := 4 / (width * s.zoom)
      let dx := (px - last.x) * scale
      let dy := (py - last.y) * scale
      let sensitivity := (1 : ℚ)/2
      { s with centerX := s.centerX - dx * sensitivity,
               centerY := s.centerY - dy * sensitivity,
               lastMousePosition := some ⟨px, py⟩ }
  else s

/-- FractalGenerator.tsx lines 166-169: `handleMouseUp` (also bound to
mouse-leave) — leave the panning state and clear the anchor. -/
def handleMouseUp (s : ControllerState) : ControllerState :=
  { s with isPanning := false, lastMousePosition := none }

/-- One wheel gesture: its `deltaY` and the pointer position it is aimed at. -/
structure WheelGesture where
  deltaY : ℚ
  px : ℚ
  py : ℚ

/-- A finite sequence of wheel gestures applied through `handleZoom`. -/
def applyWheelGestures (width height : ℚ) (gs : List WheelGesture)
    (s : ControllerState) : ControllerState :=
  gs.foldl (fun st g => handleZoom width height g.deltaY g.px g.py st) s

/-- FractalGenerator.tsx lines 176-180: the max-iterations numeric input
stores `Number(e.target.value)` into state unchanged (no coercion). -/
def setMaxIterationsFromInput (value : ℤ) (s : ControllerState) :
    ControllerState :=
  { s with maxIterations := value }

/-- FractalGenerator.tsx lines 20-22: the render effect invokes
`generateFractal` with the state value of `maxIterations` as the iteration
budget, unchanged. -/
def renderInvocationBudget (s : ControllerState) : ℤ :=
  s.maxIterations

/-- Modelled from the spec, section 4.5 (the claims compare this against the
source): the spec states the recentering formula with
`oldScale = 4.0 / (width * oldZoom)` used for BOTH axes, so
`newCenterY = oldCenterY + (mousePointTo.y - 0.5) * oldScale * (oldZoom - newZoom)`
divides by `width`, not `height`. -/
def specNewCenterY (width height deltaY px py : ℚ) (s : ControllerState) : ℚ :=
  let oldZoom := s.zoom
  let newZoom := clampZoom (newScalePreClamp oldZoom deltaY)
  let oldScale := 4 / (width * oldZoom)
  let mousePointToY := py / height
  s.centerY + (mousePointToY - 1/2) * oldScale * (oldZoom - newZoom)

/-! Helper lemmas. -/

/-- The escape loop started at the origin keeps `z = 0` and consumes the whole
fuel: `zx*zx + zy*zy = 0 ≤ 4` at every step. -/
theorem escapeLoop_origin (fuel iteration : ℕ) :
    escapeLoop 0 0 fuel 0 0 iteration = iteration + fuel := by
  induction fuel generalizing iteration with
  | zero => rfl
  | succ n ih =>
    show (if (0 * 0 + 0 * 0 : ℚ) ≤ 4 then
        escapeLoop 0 0 n (0 * 0 - 0 * 0 + 0) (2 * 0 * 0 + 0) (iteration + 1)
      else iteration) = iteration + (n + 1)
    norm_num [ih]
    omega

/-- The clamp of line 122 always lands in `[1e-5, 1e6]`. -/
theorem clampZoom_mem (z : ℚ) :
    1/100000 ≤ clampZoom z ∧ clampZoom z ≤ 1000000 := by
  unfold clampZoom
  refine ⟨le_max_left _ _, max_le (by norm_num) (min_le_left _ _)⟩

/-- Zoom bounds are preserved by any gesture sequence: each `handleZoom`
replaces `zoom` by a clamped value. -/
theorem applyWheelGestures_zoom_mem (width height : ℚ) (gs : List WheelGesture)
    (s : ControllerState) (h1 : 1/100000 ≤ s.zoom) (h2 : s.zoom ≤ 1000000) :
    1/100000 ≤ (applyWheelGestures width height gs s).zoom ∧
    (applyWheelGestures width height gs s).zoom ≤ 1000000 := by
  induction gs generalizing s with
  | nil => exact ⟨h1, h2⟩
  | cons g gs ih =>
    have hz := clampZoom_mem (newScalePreClamp s.zoom g.deltaY)
    simpa [applyWheelGestures, List.foldl_cons] using
      ih (handleZoom width height g.deltaY g.px g.py s) hz.1 hz.2

/-! Claims. -/

/-- C1. The claim states a zoom-toward-cursor invariant: after one zoom-in
wheel gesture, mapping the pointer position through the CoordinateMapper
under the old and the new viewport should give complex points within 1e-9
relative tolerance. The code violates it at an ordinary input: with the
initial viewport (center (-0.6, 0), zoom 1), canvas 800×600 and the pointer
at (800, 300), one zoom-in gesture moves the x-coordinate of the point under
the pointer from 7/5 to 7/5 - 8011/44000 (a shift of about 0.18, relative
error about 0.13), far beyond the stated tolerance. The exact rational
computation matches the f64 computation to within rounding (~1e-16), so this
is not a float artifact. -/
theorem zoomIn_moves_point_under_pointer :
    |(pixelToComplex 800 600 (handleZoom 800 600 (-1) 800 300 initialControllerState).centerX
        (handleZoom 800 600 (-1) 800 300 initialControllerState).centerY
        (handleZoom 800 600 (-1) 800 300 initialControllerState).zoom 800 300).1
      - (pixelToComplex 800 600 initialControllerState.centerX initialControllerState.centerY
          initialControllerState.zoom 800 300).1|
    > (1/1000000000) *
      |(pixelToComplex 800 600 initialControllerState.centerX initialControllerState.centerY
          initialControllerState.zoom 800 300).1| := by
  norm_num [pixelToComplex, handleZoom, clampZoom, newScalePreClamp,
    initialControllerState, max_def, min_def, abs]

/-- C2 counterexample. The claim (and spec section 4.5) states that
`oldScale = 4.0 / (width * oldZoom)` is used for BOTH axes of the zoom
recentering. Line 125 of the source divides by `height * oldZoom` instead:
at width 800, height 600, a zoom-in gesture with the pointer at (0, 0) from
the initial state gives centerY = 1/3000 in the code but 1/4000 under the
spec formula. -/
theorem handleZoom_centerY_ne_spec_formula :
    (handleZoom 800 600 (-1) 0 0 initialControllerState).centerY
      ≠ specNewCenterY 800 600 (-1) 0 0 initialControllerState := by
  norm_num [handleZoom, specNewCenterY, clampZoom, newScalePreClamp,
    initialControllerState, max_def, min_def]

/-- C2 amended. The zoom recentering actually computed by `handleZoom`
(lines 124-125): `newCenterX` adds `(px/width - 0.5) * (4/(width*oldZoom)) *
(oldZoom - newZoom)`, and `newCenterY` adds `(py/height - 0.5) *
(4/(height*oldZoom)) * (oldZoom - newZoom)` — the Y axis divides by
`height`, not `width`. -/
theorem handleZoom_center_formula (width height deltaY px py : ℚ)
    (s : ControllerState) :
    (handleZoom width height deltaY px py s).centerX
      = s.centerX + (px / width - 1/2) * (4 / (width * s.zoom))
          * (s.zoom - clampZoom (newScalePreClamp s.zoom deltaY)) ∧
    (handleZoom width height deltaY px py s).centerY
      = s.centerY + (py / height - 1/2) * (4 / (height * s.zoom))
          * (s.zoom - clampZoom (newScalePreClamp s.zoom deltaY)) :=
  ⟨rfl, rfl⟩

/-- C3. Starting from the initial state (zoom = 1), any finite sequence of
wheel gestures leaves `zoom` within `[1e-5, 1e6]`: every `handleZoom` stores
the clamped value of line 122. -/
theorem zoom_stays_clamped (width height : ℚ) (gs : List WheelGesture) :
    1/100000 ≤ (applyWheelGestures width height gs initialControllerState).zoom ∧
    (applyWheelGestures width height gs initialControllerState).zoom ≤ 1000000 :=
  applyWheelGestures_zoom_mem width height gs initialControllerState
    (by norm_num [initialControllerState]) (by norm_num [initialControllerState])

/-- C4. Pan round-trip: pointer-down at `p0`, move to `p1`, move back to
`p0` restores `centerX` and `centerY` exactly (the two incremental deltas
cancel, since zoom and width are unchanged by move events). Exact equality
in ℚ implies the claim's floating-point tolerance a fortiori. -/
theorem pan_round_trip (width p0x p0y p1x p1y : ℚ) (s : ControllerState) :
    (handleMouseMove width p0x p0y (handleMouseMove width p1x p1y
        (handleMouseDown p0x p0y s))).centerX = s.centerX ∧
    (handleMouseMove width p0x p0y (handleMouseMove width p1x p1y
        (handleMouseDown p0x p0y s))).centerY = s.centerY := by
  simp only [handleMouseDown, handleMouseMove, if_true]
  constructor <;> ring

/-- C5. Any pixel whose escape-iteration count equals `maxIterations` is
written as exactly (0, 0, 0, 255) (line 64 selects black, line 68 writes
alpha 255), and the alpha byte of every pixel is 255. -/
theorem inset_pixel_black_alpha_opaque (width height : ℕ)
    (centerX centerY zoom : ℚ) (maxIterations px py : ℕ)
    (hx : px < width) (hy : py < height) :
    (escapeIterationCount
        (pixelToComplex (width : ℚ) (height : ℚ) centerX centerY zoom (px : ℚ) (py : ℚ)).1
        (pixelToComplex (width : ℚ) (height : ℚ) centerX centerY zoom (px : ℚ) (py : ℚ)).2
        maxIterations = maxIterations →
      renderedPixelRGBA width height centerX centerY zoom maxIterations px py
        = (0, 0, 0, 255)) ∧
    (renderedPixelRGBA width height centerX centerY zoom maxIterations px py).2.2.2
      = 255 := by
  constructor
  · intro h
    simp [renderedPixelRGBA, pixelColor, h]
  · simp [renderedPixelRGBA]

/-- C5 witness: canvas 800×600, viewport centered at the origin with zoom 1,
budget 2, pixel (400, 300) — the canvas center, which maps to the complex
origin. -/
theorem inset_pixel_black_alpha_opaque_witness :
    (400 : ℕ) < 800 ∧ (300 : ℕ) < 600 ∧
    ((escapeIterationCount
        (pixelToComplex ((800 : ℕ) : ℚ) ((600 : ℕ) : ℚ) 0 0 1 ((400 : ℕ) : ℚ) ((300 : ℕ) : ℚ)).1
        (pixelToComplex ((800 : ℕ) : ℚ) ((600 : ℕ) : ℚ) 0 0 1 ((400 : ℕ) : ℚ) ((300 : ℕ) : ℚ)).2
        2 = 2 →
      renderedPixelRGBA 800 600 0 0 1 2 400 300 = (0, 0, 0, 255)) ∧
     (renderedPixelRGBA 800 600 0 0 1 2 400 300).2.2.2 = 255) :=
  ⟨by decide, by decide,
    inset_pixel_black_alpha_opaque 800 600 0 0 1 2 400 300 (by decide) (by decide)⟩

/-- C6. The origin never escapes: for any positive budget, the escape loop at
`(x, y) = (0, 0)` keeps `z = 0` and returns exactly `maxIterations`. -/
theorem origin_never_escapes (maxIterations : ℕ) (h : 1 ≤ maxIterations) :
    escapeIterationCount 0 0 maxIterations = maxIterations := by
  unfold escapeIterationCount
  simpa using escapeLoop_origin maxIterations 0

/-- C6 witness at the default budget 100. -/
theorem origin_never_escapes_witness :
    1 ≤ 100 ∧ escapeIterationCount 0 0 100 = 100 :=
  ⟨by norm_num, origin_never_escapes 100 (by norm_num)⟩

/-- C7. The three HSL spot checks: hue 0 is pure red, hue 1/3 pure green,
hue 2/3 pure blue at saturation 1 and lightness 1/2. -/
theorem hslToRgb_spot_checks :
    hslToRgb 0 1 (1/2) = (255, 0, 0) ∧
    hslToRgb (1/3) 1 (1/2) = (0, 255, 0) ∧
    hslToRgb (2/3) 1 (1/2) = (0, 0, 255) := by
  norm_num [hslToRgb, hue2rgb, jsRound]

/-- C8. The claim states that a supplied `maxIterations ≤ 0` is coerced to a
minimum of 1 before the renderer runs. The code has no such coercion: the
input handler (line 179) stores `Number(e.target.value)` unchanged and the
render effect (line 21) passes the stored value directly to
`generateFractal`, so input 0 reaches the renderer as budget 0 < 1. -/
theorem maxIterations_zero_reaches_renderer :
    renderInvocationBudget (setMaxIterationsFromInput 0 initialControllerState) = 0 ∧
    ¬ (1 ≤ renderInvocationBudget (setMaxIterationsFromInput 0 initialControllerState)) := by
  norm_num [renderInvocationBudget, setMaxIterationsFromInput, initialControllerState]

/-- C9. A pointer-move processed while panning leaves `zoom` and
`maxIterations` unchanged (lines 145-164 update only the two center
coordinates and the anchor); canvas width and height are read-only props —
parameters here — which no handler can write. -/
theorem pan_move_preserves_zoom_and_iterations (width px py : ℚ)
    (s : ControllerState) (h : s.isPanning = true) :
    (handleMouseMove width px py s).zoom = s.zoom ∧
    (handleMouseMove width px py s).maxIterations = s.maxIterations := by
  cases hm : s.lastMousePosition <;> simp [handleMouseMove, h, hm]

/-- C9 witness: a move at (1, 2) after a pointer-down at (0, 0) from the
initial state. -/
theorem pan_move_preserves_zoom_and_iterations_witness :
    (handleMouseDown 0 0 initialControllerState).isPanning = true ∧
    ((handleMouseMove 800 1 2 (handleMouseDown 0 0 initialControllerState)).zoom
        = (handleMouseDown 0 0 initialControllerState).zoom ∧
     (handleMouseMove 800 1 2 (handleMouseDown 0 0 initialControllerState)).maxIterations
        = (handleMouseDown 0 0 initialControllerState).maxIterations) :=
  ⟨rfl, pan_move_preserves_zoom_and_iterations 800 1 2 _ rfl⟩

/-- C10. Line 121 divides `zoom` by 1.1 exactly when `deltaY > 0` and
multiplies by 1.1 whenever `deltaY ≤ 0` — so a wheel event with
`deltaY = 0` is treated as a zoom-in (before clamping). -/
theorem wheel_deltaY_zero_zooms_in (zoom deltaY : ℚ) :
    (0 < deltaY → newScalePreClamp zoom deltaY = zoom / (11/10)) ∧
    (deltaY ≤ 0 → newScalePreClamp zoom deltaY = zoom * (11/10)) := by
  constructor
  · intro h
    simp [newScalePreClamp, h]
  · intro h
    simp [newScalePreClamp, not_lt.mpr h]

/-- C10 witness: `deltaY = 0` multiplies zoom 1 by 1.1. -/
theorem wheel_deltaY_zero_zooms_in_witness :
    newScalePreClamp 1 0 = 1 * (11/10) :=
  (wheel_deltaY_zero_zooms_in 1 0).2 le_rfl
